import Mathlib

/-!
Verification development for the NTLM password-spray engine of
`src/tools/py/ntlm_spray_pass.py` (class `NTLMPasswordSprayer`).

Shallow embedding notes.

The tool performs one HTTP request per (username, password) attempt and
classifies the raw outcome.  The network transport is external to the
engine, so it is modelled as an oracle `auth : String -> RawResponse`
giving, for each username, the raw outcome of the HTTP call made by
`_attempt_authentication` (lines 166-176): either an HTTP status code,
a `requests.RequestException` (which includes timeouts and connection
errors, caught at line 230), or any other `Exception` (caught at line
247).

The mutable sprayer state is the three result buckets
`successful_credentials`, `failed_attempts`, `errors` (lines 91-93);
every mutation of them in the source happens under `self._lock`, one
append per completed attempt, so a pass is modelled as a fold that
records one result per identity.  The theorems below are proved for an
arbitrary identity list, hence they hold for every completion order
(any permutation of the input list is itself a list the theorems cover).

Wall-clock fields (`response_time`, `started_at`) are real-time
measurements with no logical content and are omitted from the record.
`_validate_url` performs live network probing (lines 123-148), so its
verdict enters the model as a boolean parameter `url_valid`.
-/

/-- HTTP status code the source treats as an authentication success
(line 85 of the source: `HTTP_AUTH_SUCCEED_CODE = 200`). -/
def HTTP_AUTH_SUCCEED_CODE : Nat := 200

/-- HTTP status code the source treats as failed credentials
(line 86 of the source: `HTTP_AUTH_FAILED_CODE = 401`). -/
def HTTP_AUTH_FAILED_CODE : Nat := 401

/-- Raw outcome of the HTTP call inside `_attempt_authentication`:
a response with a status code, a `requests.RequestException` (timeouts,
connection errors), or any other `Exception`.  The string carries
`str(e)` for the exception cases. -/
inductive RawResponse where
  | status (code : Nat)
  | requestException (msg : String)
  | otherException (msg : String)
deriving DecidableEq, Repr

/-- Embedding of the `SprayResult` dataclass (lines 41-49), minus the
wall-clock `response_time` field. -/
structure SprayResult where
  username : String
  password : String
  success : Bool
  status_code : Nat
  error_message : Option String
deriving DecidableEq, Repr

/-- The three result buckets of `NTLMPasswordSprayer` (lines 91-93). -/
structure SprayerState where
  successful_credentials : List SprayResult
  failed_attempts : List SprayResult
  errors : List SprayResult
deriving DecidableEq, Repr

/-- The freshly initialised sprayer: all three buckets empty. -/
def emptyState : SprayerState := ⟨[], [], []⟩

/-- Embedding of `_attempt_authentication` (lines 152-262): given the raw
outcome `resp` of the HTTP call for user `u`, build the `SprayResult`,
append it to exactly one bucket, and return it.  Status 200 goes to
`successful_credentials` (lines 181-194), status 401 to `failed_attempts`
(lines 196-211), any other status to `errors` with an
`Unexpected status code` message (lines 213-228), and both exception
arms to `errors` with `str(e)` (lines 230-262).  The function is total:
no arm re-raises. -/
def attempt_authentication (u pw : String) (resp : RawResponse)
    (st : SprayerState) : SprayResult × SprayerState :=
  match resp with
  | RawResponse.status code =>
    if code = HTTP_AUTH_SUCCEED_CODE then
      let r : SprayResult := ⟨u, pw, true, code, none⟩
      (r, { st with successful_credentials := st.successful_credentials ++ [r] })
    else if code = HTTP_AUTH_FAILED_CODE then
      let r : SprayResult := ⟨u, pw, false, code, none⟩
      (r, { st with failed_attempts := st.failed_attempts ++ [r] })
    else
      let r : SprayResult := ⟨u, pw, false, code,
        some ("Unexpected status code: " ++ toString code)⟩
      (r, { st with errors := st.errors ++ [r] })
  | RawResponse.requestException msg =>
      let r : SprayResult := ⟨u, pw, false, 0, some msg⟩
      (r, { st with errors := st.errors ++ [r] })
  | RawResponse.otherException msg =>
      let r : SprayResult := ⟨u, pw, false, 0, some msg⟩
      (r, { st with errors := st.errors ++ [r] })

/-- Sum of the three bucket sizes: the number of attempts recorded. -/
def bucketTotal (st : SprayerState) : Nat :=
  st.successful_credentials.length + st.failed_attempts.length + st.errors.length

/-- How many recorded results across all three buckets carry username
`name` (used to state that no identity is duplicated or dropped). -/
def userCount (st : SprayerState) (name : String) : Nat :=
  st.successful_credentials.countP (fun r => r.username == name)
    + st.failed_attempts.countP (fun r => r.username == name)
    + st.errors.countP (fun r => r.username == name)

/-- The attempt loop of `password_spray` (lines 290-308): one
`_attempt_authentication` call per user, each recording exactly one
result.  Completion order is abstracted as the fold order; theorems are
stated over an arbitrary list and so cover every completion order. -/
def run_attempts (users : List String) (pw : String)
    (auth : String → RawResponse) (st : SprayerState) : SprayerState :=
  users.foldl (fun s u => (attempt_authentication u pw (auth u) s).2) st

/-- Embedding of the summary dict returned by `password_spray`
(lines 320-324): keys `valid_credentials`, `failed_attempts`, `errors`. -/
structure SpraySummary where
  valid_credentials : Nat
  failed_attempts : Nat
  errors : Nat
deriving DecidableEq, Repr

/-- The all-zero summary `{'valid_credentials': 0, 'failed_attempts': 0,
'errors': 0}` returned on the URL-validation early exit (line 282). -/
def zeroSummary : SpraySummary := ⟨0, 0, 0⟩

/-- Embedding of `password_spray` (lines 264-324).  If `_validate_url`
fails (modelled by `url_valid = false`), return the zero summary without
touching the buckets (lines 280-282).  Otherwise snapshot the three
bucket lengths (lines 285-287), run one attempt per user (lines
290-308), and return the post-minus-pre deltas (lines 311-324) together
with the new state. -/
def password_spray (users : List String) (pw : String) (url_valid : Bool)
    (auth : String → RawResponse) (st : SprayerState) :
    SpraySummary × SprayerState :=
  if url_valid then
    let initial_success_count := st.successful_credentials.length
    let initial_failed_count := st.failed_attempts.length
    let initial_error_count := st.errors.length
    let st2 := run_attempts users pw auth st
    (⟨st2.successful_credentials.length - initial_success_count,
      st2.failed_attempts.length - initial_failed_count,
      st2.errors.length - initial_error_count⟩, st2)
  else
    (zeroSummary, st)

/-- Componentwise sum of two summaries, as in the totals-update loop of
`spray_multiple_passwords` (lines 348-349). -/
def addSummary (a b : SpraySummary) : SpraySummary :=
  ⟨a.valid_credentials + b.valid_credentials,
   a.failed_attempts + b.failed_attempts,
   a.errors + b.errors⟩

/-- Embedding of `spray_multiple_passwords` (lines 326-361): starting
from the zero totals (line 340), call `password_spray` once per password
in order, adding each pass summary into the running totals.  The
`url_valid` verdict and the per-user raw outcomes may differ between
passes, so both oracles are keyed by the password.  The inter-pass
`time.sleep` (lines 352-354) has no effect on results and is omitted. -/
def spray_multiple_passwords (users : List String) (passwords : List String)
    (url_valid : String → Bool) (auth : String → String → RawResponse)
    (st : SprayerState) : SpraySummary × SprayerState :=
  passwords.foldl
    (fun acc pw =>
      let r := password_spray users pw (url_valid pw) (auth pw) acc.2
      (addSummary acc.1 r.1, r.2))
    (zeroSummary, st)

/-- Number of users whose raw outcome is HTTP 200 on this pass. -/
def acceptCountOf (users : List String) (auth : String → RawResponse) : Nat :=
  users.countP (fun u => auth u == RawResponse.status HTTP_AUTH_SUCCEED_CODE)

/-- Number of users whose raw outcome is HTTP 401 on this pass. -/
def rejectCountOf (users : List String) (auth : String → RawResponse) : Nat :=
  users.countP (fun u => auth u == RawResponse.status HTTP_AUTH_FAILED_CODE)

/-- Number of users whose raw outcome is anything other than HTTP 200 or
HTTP 401 on this pass (unexpected status, or an exception). -/
def errorCountOf (users : List String) (auth : String → RawResponse) : Nat :=
  users.countP (fun u =>
    !(auth u == RawResponse.status HTTP_AUTH_SUCCEED_CODE
      || auth u == RawResponse.status HTTP_AUTH_FAILED_CODE))

/-- Content of the file written by `export_results` (lines 372-405),
as structured data: the section headers carry the three bucket lengths,
`successful_lines` lists every accepted pair as `user:password`
(lines 386-387), `failed_preview_lines` is limited to the first 10
failed attempts (line 391), `more_failed_line` is present exactly when
more than 10 failed attempts exist (lines 394-395), and `error_lines`
lists every error with its message (lines 399-400; a `None` message
prints as `None`, as Python string interpolation does). -/
structure ExportReport where
  successful_count : Nat
  failed_count : Nat
  error_count : Nat
  successful_lines : List String
  failed_preview_lines : List String
  more_failed_line : Option String
  error_lines : List String
deriving DecidableEq, Repr

/-- String printed for an optional error message, matching Python
`f"... - {result.error_message}"` where `None` prints as `None`. -/
def messageText : Option String → String
  | some m => m
  | none => "None"

/-- Embedding of `export_results` (lines 372-405): the report content
written to the output file, keeping the data and dropping the
horizontal-rule decoration. -/
def export_results (st : SprayerState) : ExportReport :=
  { successful_count := st.successful_credentials.length
  , failed_count := st.failed_attempts.length
  , error_count := st.errors.length
  , successful_lines :=
      st.successful_credentials.map (fun r => r.username ++ ":" ++ r.password)
  , failed_preview_lines :=
      (st.failed_attempts.take 10).map
        (fun r => r.username ++ ":" ++ r.password
          ++ " (Status: " ++ toString r.status_code ++ ")")
  , more_failed_line :=
      if 10 < st.failed_attempts.length then
        some ("... and " ++ toString (st.failed_attempts.length - 10)
          ++ " more failed attempts")
      else none
  , error_lines :=
      st.errors.map (fun r => r.username ++ ":" ++ r.password
        ++ " - " ++ messageText r.error_message) }

/-- Minimum of a list of times (0 for the empty list; the pool always
has at least one worker, so the empty case is never reached). -/
def listMin : List Nat → Nat
  | [] => 0
  | x :: xs => xs.foldl Nat.min x

/-- Replace the first occurrence of `a` in the list with `b`. -/
def replaceFirst : List Nat → Nat → Nat → List Nat
  | [], _, _ => []
  | x :: xs, a, b => if x = a then b :: xs else x :: replaceFirst xs a b

/-- Discrete-time model of the dispatch behaviour of
`ThreadPoolExecutor(max_workers=m)` as used at lines 290-295: all
attempts are submitted up front, and each of the `m` workers (free
times in `avail`, initially `List.replicate m 0`) starts the next
queued attempt the moment it becomes free.  For attempt durations `ds`,
the result lists each attempt's (dispatch time, completion time) in
queue order.  The `time.sleep(self.delay_between_attempts)` at lines
304-305 executes on the main thread inside the `as_completed` result
loop (lines 298-308); it delays the main thread's consumption of
completed futures and the return of `password_spray`, but no worker
synchronises with it, so the delay parameter does not appear in the
dispatch semantics at all. -/
def poolSchedule : List Nat → List Nat → List (Nat × Nat)
  | _, [] => []
  | avail, d :: ds =>
    let t := listMin avail
    (t, t + d) :: poolSchedule (replaceFirst avail t (t + d)) ds

/-- Whether a schedule obeys the pacing rule claimed by the spec: each
attempt after the first is dispatched no earlier than `delay` after the
previous attempt's completion. -/
def gapRespected (delay : Nat) : List (Nat × Nat) → Bool
  | p :: q :: rest => decide (p.2 + delay ≤ q.1) && gapRespected delay (q :: rest)
  | _ => true

/-- The property stated by claim C2, written from the spec's words for
refutation: a pass fails to produce its per-attempt results exactly
when the caller contract (non-empty identities, non-empty secret) is
violated. -/
def specFailsIffContractViolated (users : List String) (pw : String)
    (url_valid : Bool) (auth : String → RawResponse)
    (st : SprayerState) : Prop :=
  (bucketTotal (password_spray users pw url_valid auth st).2
      ≠ bucketTotal st + users.length)
    ↔ (users = [] ∨ pw = "")

/-- Outcome of `main` (lines 534-575) around a single-password spray:
either the spray completed and its summary is available for display and
export (lines 547-567), or a `KeyboardInterrupt` was caught at lines
570-572 and the process exited with code 0 without any summary. -/
inductive MainOutcome where
  | finished (results : SpraySummary) (final : SprayerState)
  | cancelled
deriving DecidableEq, Repr

/-- Whether a `main` outcome carries a results summary. -/
def hasSummary : MainOutcome → Bool
  | MainOutcome.finished _ _ => true
  | MainOutcome.cancelled => false

/-- A pass as interruptible computation: `interruptAfter = some k`
models a `KeyboardInterrupt` delivered to the main thread after `k`
attempts have been recorded.  `password_spray` (lines 264-324) contains
no handler for it, so the interrupt abandons the pass: the buckets keep
the `k` results already recorded, but the summary computation at lines
311-324 is never reached, which the `Except.error` arm models by
carrying only the state. -/
def password_spray_run (users : List String) (pw : String)
    (url_valid : Bool) (auth : String → RawResponse)
    (interruptAfter : Option Nat) :
    Except SprayerState (SpraySummary × SprayerState) :=
  match interruptAfter with
  | none => Except.ok (password_spray users pw url_valid auth emptyState)
  | some k => Except.error
      (if url_valid then run_attempts (users.take k) pw auth emptyState
       else emptyState)

/-- Embedding of `main`'s try/except around a spray (lines 534-575):
a completed spray flows to the summary display and export, while a
`KeyboardInterrupt` reaches only the handler at lines 570-572, which
prints a message and calls `sys.exit(0)`. -/
def main_run (users : List String) (pw : String) (url_valid : Bool)
    (auth : String → RawResponse) (interruptAfter : Option Nat) :
    MainOutcome :=
  match password_spray_run users pw url_valid auth interruptAfter with
  | Except.ok (s, st) => MainOutcome.finished s st
  | Except.error _ => MainOutcome.cancelled

/-- Componentwise sum of the per-password pass summaries of a campaign,
each pass summarised from a fresh snapshot (claim C7's reference value:
what the campaign totals are claimed to equal). -/
def campaignSum (users : List String) (pws : List String)
    (url_valid : String → Bool) (auth : String → String → RawResponse) :
    SpraySummary :=
  (pws.map (fun pw =>
    (password_spray users pw (url_valid pw) (auth pw) emptyState).1)).foldr
      addSummary zeroSummary

theorem run_attempts_nil (pw : String) (auth : String → RawResponse)
    (st : SprayerState) : run_attempts [] pw auth st = st := rfl

theorem run_attempts_cons (u : String) (us : List String) (pw : String)
    (auth : String → RawResponse) (st : SprayerState) :
    run_attempts (u :: us) pw auth st =
      run_attempts us pw auth (attempt_authentication u pw (auth u) st).2 := rfl

theorem attempt_total (u pw : String) (r : RawResponse) (st : SprayerState) :
    bucketTotal (attempt_authentication u pw r st).2 = bucketTotal st + 1 := by
  cases r <;> simp only [attempt_authentication] <;> (try split) <;> (try split) <;>
    simp [bucketTotal, List.length_append] <;> omega

theorem run_attempts_total (users : List String) (pw : String)
    (auth : String → RawResponse) (st : SprayerState) :
    bucketTotal (run_attempts users pw auth st) = bucketTotal st + users.length := by
  induction users generalizing st with
  | nil => simp [run_attempts_nil]
  | cons u us ih =>
    rw [run_attempts_cons, ih, attempt_total, List.length_cons]
    omega

theorem attempt_succ_len (u pw : String) (r : RawResponse) (st : SprayerState) :
    (attempt_authentication u pw r st).2.successful_credentials.length =
      st.successful_credentials.length
        + (if r = RawResponse.status HTTP_AUTH_SUCCEED_CODE then 1 else 0) := by
  cases r <;> simp only [attempt_authentication] <;> (try split) <;> (try split) <;>
    simp_all [List.length_append, HTTP_AUTH_SUCCEED_CODE, HTTP_AUTH_FAILED_CODE]

theorem attempt_fail_len (u pw : String) (r : RawResponse) (st : SprayerState) :
    (attempt_authentication u pw r st).2.failed_attempts.length =
      st.failed_attempts.length
        + (if r = RawResponse.status HTTP_AUTH_FAILED_CODE then 1 else 0) := by
  cases r <;> simp only [attempt_authentication] <;> (try split) <;> (try split) <;>
    simp_all [List.length_append, HTTP_AUTH_SUCCEED_CODE, HTTP_AUTH_FAILED_CODE]

theorem attempt_err_len (u pw : String) (r : RawResponse) (st : SprayerState) :
    (attempt_authentication u pw r st).2.errors.length =
      st.errors.length
        + (if r = RawResponse.status HTTP_AUTH_SUCCEED_CODE
              ∨ r = RawResponse.status HTTP_AUTH_FAILED_CODE then 0 else 1) := by
  cases r <;> simp only [attempt_authentication] <;> (try split) <;> (try split) <;>
    simp_all [List.length_append, HTTP_AUTH_SUCCEED_CODE, HTTP_AUTH_FAILED_CODE]

theorem run_attempts_succ_len (users : List String) (pw : String)
    (auth : String → RawResponse) (st : SprayerState) :
    (run_attempts users pw auth st).successful_credentials.length =
      st.successful_credentials.length + acceptCountOf users auth := by
  induction users generalizing st with
  | nil => simp [run_attempts_nil, acceptCountOf]
  | cons u us ih =>
    rw [run_attempts_cons, ih, attempt_succ_len]
    by_cases h : auth u = RawResponse.status HTTP_AUTH_SUCCEED_CODE <;>
      simp [acceptCountOf, List.countP_cons, h] <;> omega

theorem run_attempts_fail_len (users : List String) (pw : String)
    (auth : String → RawResponse) (st : SprayerState) :
    (run_attempts users pw auth st).failed_attempts.length =
      st.failed_attempts.length + rejectCountOf users auth := by
  induction users generalizing st with
  | nil => simp [run_attempts_nil, rejectCountOf]
  | cons u us ih =>
    rw [run_attempts_cons, ih, attempt_fail_len]
    by_cases h : auth u = RawResponse.status HTTP_AUTH_FAILED_CODE <;>
      simp [rejectCountOf, List.countP_cons, h] <;> omega

theorem run_attempts_err_len (users : List String) (pw : String)
    (auth : String → RawResponse) (st : SprayerState) :
    (run_attempts users pw auth st).errors.length =
      st.errors.length + errorCountOf users auth := by
  induction users generalizing st with
  | nil => simp [run_attempts_nil, errorCountOf]
  | cons u us ih =>
    rw [run_attempts_cons, ih, attempt_err_len]
    by_cases h1 : auth u = RawResponse.status HTTP_AUTH_SUCCEED_CODE <;>
      by_cases h2 : auth u = RawResponse.status HTTP_AUTH_FAILED_CODE <;>
        simp_all [errorCountOf, List.countP_cons,
          HTTP_AUTH_SUCCEED_CODE, HTTP_AUTH_FAILED_CODE] <;> omega

theorem attempt_userCount (u pw : String) (r : RawResponse) (st : SprayerState)
    (name : String) :
    userCount (attempt_authentication u pw r st).2 name =
      userCount st name + (if u = name then 1 else 0) := by
  by_cases h : u = name <;>
    cases r <;> simp only [attempt_authentication] <;> (try split) <;> (try split) <;>
      simp_all [userCount, List.countP_append, List.countP_cons] <;> omega

theorem run_attempts_userCount (users : List String) (pw : String)
    (auth : String → RawResponse) (st : SprayerState) (name : String) :
    userCount (run_attempts users pw auth st) name =
      userCount st name + users.count name := by
  induction users generalizing st with
  | nil => simp [run_attempts_nil]
  | cons u us ih =>
    rw [run_attempts_cons, ih, attempt_userCount]
    by_cases h : u = name <;> simp [List.count_cons, h] <;> omega

theorem password_spray_false_eq (users : List String) (pw : String)
    (auth : String → RawResponse) (st : SprayerState) :
    password_spray users pw false auth st = (zeroSummary, st) := rfl

theorem password_spray_true_eq (users : List String) (pw : String)
    (auth : String → RawResponse) (st : SprayerState) :
    password_spray users pw true auth st =
      (⟨acceptCountOf users auth, rejectCountOf users auth,
        errorCountOf users auth⟩, run_attempts users pw auth st) := by
  have hs := run_attempts_succ_len users pw auth st
  have hf := run_attempts_fail_len users pw auth st
  have he := run_attempts_err_len users pw auth st
  simp [password_spray, hs, hf, he, Nat.add_sub_cancel_left]

theorem password_spray_summary_eq (users : List String) (pw : String)
    (v : Bool) (auth : String → RawResponse) (st : SprayerState) :
    (password_spray users pw v auth st).1 =
      if v then
        ⟨acceptCountOf users auth, rejectCountOf users auth,
          errorCountOf users auth⟩
      else zeroSummary := by
  cases v
  · simp [password_spray_false_eq]
  · simp [password_spray_true_eq]

theorem addSummary_zero (a : SpraySummary) : addSummary a zeroSummary = a := by
  simp [addSummary, zeroSummary]

theorem zero_addSummary (a : SpraySummary) : addSummary zeroSummary a = a := by
  simp [addSummary, zeroSummary]

theorem addSummary_assoc (a b c : SpraySummary) :
    addSummary (addSummary a b) c = addSummary a (addSummary b c) := by
  simp [addSummary, Nat.add_assoc]

theorem spray_multiple_go (users : List String) (pws : List String)
    (urlv : String → Bool) (auth : String → String → RawResponse)
    (a : SpraySummary) (st : SprayerState) :
    (pws.foldl (fun acc pw =>
        let r := password_spray users pw (urlv pw) (auth pw) acc.2
        (addSummary acc.1 r.1, r.2)) (a, st)).1 =
      addSummary a (campaignSum users pws urlv auth) := by
  induction pws generalizing a st with
  | nil => simp [campaignSum, addSummary_zero]
  | cons pw pws ih =>
    have hconst : (password_spray users pw (urlv pw) (auth pw) st).1 =
        (password_spray users pw (urlv pw) (auth pw) emptyState).1 := by
      rw [password_spray_summary_eq, password_spray_summary_eq]
    simp only [List.foldl_cons, ih, campaignSum, List.map_cons, List.foldr_cons]
    rw [hconst, addSummary_assoc]

theorem listMin_single (t : Nat) : listMin [t] = t := rfl

theorem replaceFirst_single (t b : Nat) : replaceFirst [t] t b = [b] := by
  simp [replaceFirst]

theorem poolSchedule_single (t d : Nat) (ds : List Nat) :
    poolSchedule [t] (d :: ds) = (t, t + d) :: poolSchedule [t + d] ds := by
  simp [poolSchedule, listMin_single, replaceFirst_single]

/-- C1: every dispatched attempt yields exactly one recorded result in
exactly one bucket: after recording any prefix of the attempts (the
state seen after each individual insertion) the three bucket sizes sum
to the prior total plus the number of attempts recorded so far; each
identity contributes results exactly as often as it occurs in the input
(no identity duplicated or missing); and a full pass over the
identities (with the URL accepted, no cancellation) grows the total by
exactly the number of identities. -/
theorem spray_pass_partition_sum (users : List String) (pw : String)
    (auth : String → RawResponse) (st : SprayerState) (k : Nat)
    (name : String) :
    bucketTotal (run_attempts (users.take k) pw auth st) =
      bucketTotal st + min k users.length ∧
    userCount (run_attempts users pw auth st) name =
      userCount st name + users.count name ∧
    bucketTotal (password_spray users pw true auth st).2 =
      bucketTotal st + users.length := by
  refine ⟨?_, run_attempts_userCount users pw auth st name, ?_⟩
  · rw [run_attempts_total, List.length_take]
  · rw [password_spray_true_eq]
    exact run_attempts_total users pw auth st

/-- C2 counterexample: the claim says a pass fails to produce its
per-attempt results exactly when `identities` or `secret` is empty.
The code has no such check: with one identity and a non-empty secret,
URL-validation failure makes `password_spray` return the zero summary
having produced no per-attempt result, so a pass can fail without any
caller-contract violation.  The claim as stated is therefore false. -/
theorem password_spray_fails_without_contract_violation :
    ¬ specFailsIffContractViolated ["alice"] "Summer1" false
        (fun _ => RawResponse.status 401) emptyState := by
  unfold specFailsIffContractViolated
  decide

/-- C2 amended: `password_spray` never inspects `identities` or
`secret` for emptiness and raises nothing to its caller; the only
condition under which it returns without dispatching per-attempt
results is URL-validation failure (zero summary, state untouched), and
with a valid URL it records exactly one result per identity, even when
the identity list or the secret is empty. -/
theorem password_spray_url_validation_is_only_gate (users : List String)
    (pw : String) (auth : String → RawResponse) (st : SprayerState) :
    password_spray users pw false auth st = (zeroSummary, st) ∧
    bucketTotal (password_spray users pw true auth st).2 =
      bucketTotal st + users.length := by
  refine ⟨password_spray_false_eq users pw auth st, ?_⟩
  rw [password_spray_true_eq]
  exact run_attempts_total users pw auth st

/-- C3 counterexample: with one worker, two queued attempts of duration
1 and `delay_between_attempts = 5`, the second attempt is dispatched at
time 1 — the instant the first completes — not at time 6.  The
`time.sleep` at lines 304-305 runs on the main thread consuming
completed futures and never gates the workers, so the claimed rule
"no new attempt is dispatched until the delay has elapsed since the
previous completion" is false of the code. -/
theorem dispatch_not_delayed_after_completion :
    poolSchedule [0] [1, 1] = [(0, 1), (1, 2)] ∧
    gapRespected 5 (poolSchedule [0] [1, 1]) = false := by
  decide

/-- C3 amended: the configured delay never appears in the dispatch
semantics: with a single worker the next queued attempt is dispatched
exactly at the previous attempt's completion time (zero gap), and
consequently for every positive delay the claimed
completion-to-next-dispatch pacing is violated as soon as a pass has at
least two attempts.  The sleep at lines 304-305 only paces the main
thread's consumption of completed futures. -/
theorem pool_dispatch_zero_gap (t d₁ d₂ delay : Nat) (ds : List Nat) :
    poolSchedule [t] (d₁ :: ds) = (t, t + d₁) :: poolSchedule [t + d₁] ds ∧
    gapRespected (delay + 1) (poolSchedule [t] (d₁ :: d₂ :: ds)) = false := by
  refine ⟨poolSchedule_single t d₁ ds, ?_⟩
  rw [poolSchedule_single, poolSchedule_single]
  have h : ¬ (t + d₁ + (delay + 1) ≤ t + d₁) := by omega
  simp [gapRespected, h]

/-- C4: a transport-level fault (`requests.RequestException`) in one
attempt is returned as a normal result carrying the fault message,
recorded in the errored bucket only, with the other buckets untouched —
the exception arm at lines 230-245 never re-raises — and a pass over N
identities always records exactly N results whatever outcomes (faults
included) the Authenticator produces for each identity. -/
theorem transport_fault_recorded_not_propagated (u pw msg : String)
    (st : SprayerState) (users : List String)
    (auth : String → RawResponse) :
    (attempt_authentication u pw (RawResponse.requestException msg) st).1 =
      ⟨u, pw, false, 0, some msg⟩ ∧
    (attempt_authentication u pw (RawResponse.requestException msg) st).2 =
      { st with errors := st.errors ++ [⟨u, pw, false, 0, some msg⟩] } ∧
    bucketTotal (run_attempts users pw auth st) =
      bucketTotal st + users.length :=
  ⟨rfl, rfl, run_attempts_total users pw auth st⟩

/-- C5: classification is a deterministic function of the raw response:
the accepted bucket grows exactly when the status is 200, the rejected
bucket exactly when the status is 401, and the errored bucket exactly
otherwise (unexpected status codes and both exception arms, timeouts
included); in particular a `requests.RequestException` — the class of
timeouts — never touches the rejected bucket. -/
theorem outcome_classification_deterministic (u pw : String)
    (st : SprayerState) (r : RawResponse) (m : String) :
    (attempt_authentication u pw r st).2.successful_credentials.length =
      st.successful_credentials.length
        + (if r = RawResponse.status HTTP_AUTH_SUCCEED_CODE then 1 else 0) ∧
    (attempt_authentication u pw r st).2.failed_attempts.length =
      st.failed_attempts.length
        + (if r = RawResponse.status HTTP_AUTH_FAILED_CODE then 1 else 0) ∧
    (attempt_authentication u pw r st).2.errors.length =
      st.errors.length
        + (if r = RawResponse.status HTTP_AUTH_SUCCEED_CODE
              ∨ r = RawResponse.status HTTP_AUTH_FAILED_CODE then 0 else 1) ∧
    (attempt_authentication u pw (RawResponse.requestException m) st).2.failed_attempts
      = st.failed_attempts :=
  ⟨attempt_succ_len u pw r st, attempt_fail_len u pw r st,
    attempt_err_len u pw r st, rfl⟩

/-- C6: the summary a pass returns holds exactly the post-minus-pre
differences of the three bucket lengths, and is therefore independent
of whatever the aggregator held before the call — two passes with the
same inputs return the same summary from any two prior states, so the
summary is never the cumulative totals. -/
theorem pass_summary_is_delta (users : List String) (pw : String)
    (auth : String → RawResponse) (st st₁ st₂ : SprayerState) :
    (password_spray users pw true auth st).1.valid_credentials =
      (password_spray users pw true auth st).2.successful_credentials.length
        - st.successful_credentials.length ∧
    (password_spray users pw true auth st).1.failed_attempts =
      (password_spray users pw true auth st).2.failed_attempts.length
        - st.failed_attempts.length ∧
    (password_spray users pw true auth st).1.errors =
      (password_spray users pw true auth st).2.errors.length
        - st.errors.length ∧
    (password_spray users pw true auth st₁).1 =
      (password_spray users pw true auth st₂).1 := by
  refine ⟨?_, ?_, ?_, ?_⟩ <;>
    simp [password_spray_true_eq, run_attempts_succ_len, run_attempts_fail_len,
      run_attempts_err_len, Nat.add_sub_cancel_left]

/-- C7: `spray_multiple_passwords` over an empty secret list returns the
all-zero totals with the aggregator untouched (the scheduler is never
entered), and in general its totals equal the componentwise sum of the
per-secret pass summaries. -/
theorem campaign_totals_componentwise_sum (users : List String)
    (pws : List String) (urlv : String → Bool)
    (auth : String → String → RawResponse) (st : SprayerState) :
    spray_multiple_passwords users [] urlv auth st = (zeroSummary, st) ∧
    (spray_multiple_passwords users pws urlv auth st).1 =
      campaignSum users pws urlv auth := by
  refine ⟨rfl, ?_⟩
  have h := spray_multiple_go users pws urlv auth zeroSummary st
  rw [zero_addSummary] at h
  exact h

/-- C8 counterexample: a `KeyboardInterrupt` delivered after 1 of 3
attempts have completed reaches only the handler at lines 570-572,
which exits the process: the outcome carries no summary at all, even
though one attempt had been recorded — the claimed partial
`SprayPassSummary` is never returned. -/
theorem interrupt_returns_no_partial_summary :
    hasSummary (main_run ["alice", "bob", "carol"] "pw" true
      (fun _ => RawResponse.status 401) (some 1)) = false ∧
    bucketTotal (run_attempts (["alice", "bob", "carol"].take 1) "pw"
      (fun _ => RawResponse.status 401) emptyState) = 1 := by
  decide

/-- C8 amended: there is no cooperative cancellation: an interrupt
during a pass propagates out of the scheduler, which therefore returns
no summary (partial or otherwise); `main` catches it, prints a message
and exits with code 0, so no further secret passes run because the
process terminates.  Without an interrupt the spray completes and its
summary and final state flow to display and export. -/
theorem interrupt_exits_without_summary (users : List String) (pw : String)
    (v : Bool) (auth : String → RawResponse) (k : Nat) :
    main_run users pw v auth (some k) = MainOutcome.cancelled ∧
    hasSummary (main_run users pw v auth (some k)) = false ∧
    main_run users pw v auth none =
      MainOutcome.finished (password_spray users pw v auth emptyState).1
        (password_spray users pw v auth emptyState).2 := by
  refine ⟨rfl, rfl, ?_⟩
  simp [main_run, password_spray_run]

/-- C9: the exported report carries the three bucket totals, the full
accepted identity:secret list (one line per accepted result), a preview
of the failed attempts bounded to the first 10 with a remainder line
exactly when more than 10 exist, and the full error list (one line per
error, message included). -/
theorem export_report_contents (st : SprayerState) :
    (export_results st).successful_count = st.successful_credentials.length ∧
    (export_results st).failed_count = st.failed_attempts.length ∧
    (export_results st).error_count = st.errors.length ∧
    (export_results st).successful_lines.length =
      st.successful_credentials.length ∧
    (export_results st).failed_preview_lines =
      (st.failed_attempts.take 10).map
        (fun r => r.username ++ ":" ++ r.password
          ++ " (Status: " ++ toString r.status_code ++ ")") ∧
    (export_results st).failed_preview_lines.length =
      min 10 st.failed_attempts.length ∧
    (export_results st).more_failed_line =
      (if 10 < st.failed_attempts.length then
        some ("... and " ++ toString (st.failed_attempts.length - 10)
          ++ " more failed attempts")
       else none) ∧
    (export_results st).error_lines.length = st.errors.length := by
  refine ⟨rfl, rfl, rfl, ?_, rfl, ?_, rfl, ?_⟩ <;>
    simp [export_results, List.length_take]

/-- C10: when URL validation fails, `password_spray` returns the
all-zero summary (valid_credentials, failed_attempts, errors all 0)
and the three buckets are exactly as before the call: no attempt is
dispatched on this path. -/
theorem url_validation_failure_leaves_state_unchanged (users : List String)
    (pw : String) (auth : String → RawResponse) (st : SprayerState) :
    password_spray users pw false auth st = (zeroSummary, st) ∧
    zeroSummary = ⟨0, 0, 0⟩ :=
  ⟨rfl, rfl⟩
